import Mathlib

/-!
Shallow embedding of `src/nakala/csv_converter.py` (class `CsvConverter`).

Python strings are modelled as Lean `String`, operated on through their
character lists (`String.data`) with structural / fuel-based recursion so that
every definition evaluates inside the kernel.  Python `dict`s with a fixed key
set are modelled as structures whose fields are `Option` (a `none` field is an
absent key); the dynamically keyed `property_uris` dict is an association list
in insertion order.  Python truthiness of an optional string (`if row.get(k):`)
is `truthy`.  Code paths on which the Python code would raise an exception are
modelled with `Option` results (`none` = exception).
-/

namespace CsvConv

/-- Python `str.strip` whitespace test, one character. -/
def isWsChar (c : Char) : Bool := c.isWhitespace

/-- Strip leading and trailing whitespace from a character list. -/
def trimChars (cs : List Char) : List Char :=
  ((cs.dropWhile isWsChar).reverse.dropWhile isWsChar).reverse

/-- Embedding of Python `s.strip()`. -/
def pyStrip (s : String) : String := String.mk (trimChars s.data)

/-- Split a character list on a separator character; models Python
`str.split(sep)` for a one-character separator (keeps empty segments). -/
def splitChar (c : Char) : List Char → List (List Char)
  | [] => [[]]
  | x :: xs =>
    if x = c then [] :: splitChar c xs
    else
      match splitChar c xs with
      | [] => [[x]]
      | y :: ys => (x :: y) :: ys

/-- Embedding of Python `s.split(c)` for a one-character separator. -/
def pySplit (s : String) (c : Char) : List String :=
  (splitChar c s.data).map String.mk

/-- Embedding of Python `c in s` for a single character. -/
def pyContains (s : String) (c : Char) : Bool := s.data.contains c

/-- Helper for `s.split(c, 1)`: split at the first occurrence of `c`, or
`none` when `c` does not occur. -/
def splitFirstAux (c : Char) : List Char → Option (List Char × List Char)
  | [] => none
  | x :: xs =>
    if x = c then some ([], xs)
    else (splitFirstAux c xs).map (fun p => (x :: p.1, p.2))

/-- Embedding of Python `s.split(c, 1)` when `c` occurs in `s` (`some`), and
of the `c not in s` case (`none`). -/
def splitFirstOn (s : String) (c : Char) : Option (String × String) :=
  (splitFirstAux c s.data).map (fun p => (String.mk p.1, String.mk p.2))

/-- Embedding of Python `s.startswith(pat)`. -/
def strStarts (s pat : String) : Bool := pat.data.isPrefixOf s.data

/-- Fuel-based worker for Python `s.replace(pat, rep)` (replace all
non-overlapping occurrences, scanning left to right).  The fuel is the length
of the scanned list, which suffices for every non-empty pattern. -/
def replaceAllAux (pat rep : List Char) : Nat → List Char → List Char
  | 0, cs => cs
  | _ + 1, [] => []
  | fuel + 1, x :: xs =>
    if pat.isPrefixOf (x :: xs) then
      rep ++ replaceAllAux pat rep fuel ((x :: xs).drop pat.length)
    else
      x :: replaceAllAux pat rep fuel xs

/-- Embedding of Python `s.replace(pat, rep)` (for non-empty `pat`). -/
def pyReplaceAll (s pat rep : String) : String :=
  String.mk (replaceAllAux pat.data rep.data s.data.length s.data)

/-- Embedding of Python `s.upper()` (ASCII range, which is all the source
compares against). -/
def pyUpper (s : String) : String := String.mk (s.data.map Char.toUpper)

/-- Embedding of the Python slice `s[n:]` (character based). -/
def strDrop (s : String) (n : Nat) : String := String.mk (s.data.drop n)

/-- Python truthiness of an optional string: present and non-empty. -/
def truthy : Option String → Bool
  | none => false
  | some s => s ≠ ""

/-- Value of an optional string where the source indexes the dict directly
(only ever evaluated under a `truthy` guard). -/
def orEmpty : Option String → String
  | none => ""
  | some s => s

/-- Embedding of Python `a or b` on two optional strings. -/
def pyOr (a b : Option String) : Option String := if truthy a then a else b

/-- `{"lang": ..., "value": ...}` dicts produced by
`parse_multilingual_field`; `lang` is `none` for Python `None`. -/
structure LangValue where
  lang : Option String
  value : String
  deriving Repr, DecidableEq

/-- The creator `value` dict built by `parse_creator`; `orcid := none` models
the `"orcid"` key being absent. -/
structure CreatorValue where
  givenname : String
  surname : String
  fullName : String
  orcid : Option String
  deriving Repr, DecidableEq

/-- A metadata value: a plain string, or a creator record. -/
inductive MetaValue where
  | str (s : String)
  | creator (c : CreatorValue)
  deriving Repr, DecidableEq

/-- One NAKALA metadata object; `lang := none` / `typeUri := none` model the
corresponding dict keys being absent. -/
structure Meta where
  propertyUri : String
  value : MetaValue
  lang : Option String := none
  typeUri : Option String := none
  deriving Repr, DecidableEq

/-- A CSV row (`Dict[str, str]`): the columns the converter reads; a `none`
field models a missing column. -/
structure Row where
  title : Option String := none
  alternative : Option String := none
  description : Option String := none
  keywords : Option String := none
  subject : Option String := none
  creator : Option String := none
  contributor : Option String := none
  date : Option String := none
  created : Option String := none
  license : Option String := none
  type : Option String := none
  language : Option String := none
  temporal : Option String := none
  spatial : Option String := none
  accessRights : Option String := none
  identifier : Option String := none
  deriving Repr, DecidableEq

/-- A dataset dict as read by `validate_dataset`: `status := none` models a
missing `status` key, `metas := []` the `dataset.get('metas', [])` default. -/
structure Dataset where
  status : Option String := none
  metas : List Meta := []
  deriving Repr, DecidableEq

/-- The `self.property_uris` table set up by `CsvConverter.__init__`, in
insertion order. -/
def init_property_uris : List (String × String) :=
  [("title", "http://nakala.fr/terms#title"),
   ("alternative", "http://purl.org/dc/terms/alternative"),
   ("description", "http://purl.org/dc/terms/description"),
   ("subject", "http://purl.org/dc/terms/subject"),
   ("creator", "http://nakala.fr/terms#creator"),
   ("contributor", "http://purl.org/dc/terms/contributor"),
   ("created", "http://nakala.fr/terms#created"),
   ("license", "http://nakala.fr/terms#license"),
   ("type", "http://nakala.fr/terms#type"),
   ("language", "http://purl.org/dc/terms/language"),
   ("temporal", "http://purl.org/dc/terms/temporal"),
   ("spatial", "http://purl.org/dc/terms/spatial"),
   ("accessRights", "http://purl.org/dc/terms/accessRights"),
   ("identifier", "http://purl.org/dc/terms/identifier"),
   ("publisher", "http://purl.org/dc/terms/publisher")]

/-- Embedding of `self.property_uris[k]` (every lookup in the source uses a
key present in the table). -/
def dictGet (uris : List (String × String)) (k : String) : String :=
  match uris.find? (fun p => p.1 == k) with
  | some p => p.2
  | none => ""

/-- Embedding of `[k for k, v in self.property_uris.items() if v == uri][0]`
(first key, in insertion order, mapping to `uri`). -/
def keyForUri (uris : List (String × String)) (u : String) : String :=
  match (uris.filter (fun p => p.2 == u)).map (fun p => p.1) with
  | k :: _ => k
  | [] => ""

/-- `CsvConverter.parse_multilingual_field`. -/
def parse_multilingual_field (value : String) : List LangValue :=
  if value = "" ∨ pyStrip value = "" then []
  else if ¬ pyContains value '|' ∧ ¬ pyContains value ':' then
    [{ lang := none, value := pyStrip value }]
  else
    (pySplit value '|').map fun part0 =>
      let part := pyStrip part0
      match splitFirstOn part ':' with
      | some (lang, text) => { lang := some (pyStrip lang), value := pyStrip text }
      | none => { lang := none, value := part }

/-- `CsvConverter.parse_multiple_values`. -/
def parse_multiple_values (value : String) : List String :=
  if pyContains value ';' then
    ((pySplit value ';').map pyStrip).filter (fun v => v ≠ "")
  else if pyStrip value ≠ "" then [pyStrip value] else []

/-- Character class `[0-9X-]` from the creator ORCID regex. -/
def isOrcidChar (c : Char) : Bool := c.isDigit || c = 'X' || c = '-'

/-- Full match of `^\d\x7b4\x7d-\d\x7b4\x7d-\d\x7b4\x7d-\d\x7b3\x7d[\dX]$`,
the ORCID shape validated by `normalize_orcid`. -/
def isOrcidFormat (s : String) : Bool :=
  match s.data with
  | [a, b, c, d, h1, e, f, g, h, h2, i, j, k, l, h3, m, n, o, p] =>
    h1 = '-' && h2 = '-' && h3 = '-' &&
    [a, b, c, d, e, f, g, h, i, j, k, l, m, n, o].all Char.isDigit &&
    (p.isDigit || p = 'X')
  | _ => false

/-- The prefix-stripping phase of `CsvConverter.normalize_orcid` (the two
sequential reassignments of the local `orcid`): strip, then remove a known
URL/label prefix. -/
def orcidCandidate (orcid_str : String) : String :=
  let orcid := pyStrip orcid_str
  if strStarts orcid "https://orcid.org/" then
    pyReplaceAll orcid "https://orcid.org/" ""
  else if strStarts orcid "http://orcid.org/" then
    pyReplaceAll orcid "http://orcid.org/" ""
  else if strStarts (pyUpper orcid) "ORCID:" then
    pyStrip (strDrop orcid 6)
  else orcid

/-- `CsvConverter.normalize_orcid`. -/
def normalize_orcid (orcid_str : String) : Option String :=
  if orcid_str = "" then none
  else if isOrcidFormat (orcidCandidate orcid_str) then
    some (orcidCandidate orcid_str)
  else none

/-- Anchored match of the creator regex `(.+?)\s*\(([0-9X-]\x7b19\x7d)\)` on
the whole string: the last 21 characters must be `(`, 19 characters of
`[0-9X-]`, `)`, with a non-empty remainder before them.  Returns the text
before the parenthesis (group 1 together with the `\s*` run, which the caller
immediately strips) and the 19-character group 2. -/
def orcidGroupMatch (s : String) : Option (String × String) :=
  let cs := s.data
  let n := cs.length
  if n ≥ 22 ∧ cs.getD (n - 21) ' ' = '(' ∧ cs.getD (n - 1) ' ' = ')' ∧
      ((cs.drop (n - 20)).take 19).all isOrcidChar then
    some (String.mk (cs.take (n - 21)), String.mk ((cs.drop (n - 20)).take 19))
  else none

/-- The ORCID-extraction step of the `for name in names:` loop of
`CsvConverter.parse_creator`: result of `if match: name = ...; orcid = ...`
as a (name, orcid) pair. -/
def creatorNameOrcid (name1 : String) : String × Option String :=
  match orcidGroupMatch name1 with
  | some (g1, g2) => (pyStrip g1, normalize_orcid g2)
  | none => (name1, none)

/-- The `"Surname, Given"` comma split of `CsvConverter.parse_creator`, as a
(surname, givenname) pair. -/
def creatorSplitName (name : String) : String × String :=
  if pyContains name ',' then
    match splitFirstOn name ',' with
    | some (a, b) => (pyStrip a, pyStrip b)
    | none => (name, "")
  else (name, "")

/-- Body of the `for name in names:` loop of `CsvConverter.parse_creator`:
builds one creator value dict from one name. -/
def mkCreatorValue (name0 : String) : CreatorValue :=
  let extracted := creatorNameOrcid (pyStrip name0)
  let split := creatorSplitName extracted.1
  { givenname := split.2, surname := split.1,
    fullName :=
      if split.2 ≠ "" then pyStrip (split.2 ++ " " ++ split.1) else split.1,
    orcid := if truthy extracted.2 then extracted.2 else none }

/-- The metadata object appended for one creator name. -/
def mkCreatorMeta (uris : List (String × String)) (name0 : String) : Meta :=
  { propertyUri := dictGet uris "creator",
    value := MetaValue.creator (mkCreatorValue name0) }

/-- `CsvConverter.parse_creator`. -/
def parse_creator (uris : List (String × String)) (value : String) :
    List Meta :=
  if value = "" ∨ pyStrip value = "" then []
  else
    (parse_multilingual_field value).flatMap fun lang_part =>
      (parse_multiple_values lang_part.value).map (mkCreatorMeta uris)

/-- `CsvConverter.csv_row_to_nakala_metas`, translated statement by statement:
each `if row.get(...)` block appends its entries to the accumulated list. -/
def csv_row_to_nakala_metas (uris : List (String × String)) (row : Row) :
    List Meta :=
  let metas : List Meta := []
  -- Title (multilingual)
  let metas := metas ++
    (if truthy row.title then
      (parse_multilingual_field (orEmpty row.title)).map (fun part =>
        { propertyUri := dictGet uris "title", value := MetaValue.str part.value,
          lang := if truthy part.lang then part.lang else none })
    else [])
  -- Alternative title (multilingual)
  let metas := metas ++
    (if truthy row.alternative then
      (parse_multilingual_field (orEmpty row.alternative)).map (fun part =>
        { propertyUri := dictGet uris "alternative",
          value := MetaValue.str part.value,
          lang := if truthy part.lang then part.lang else none,
          typeUri := some "http://www.w3.org/2001/XMLSchema#string" })
    else [])
  -- Description (multilingual)
  let metas := metas ++
    (if truthy row.description then
      (parse_multilingual_field (orEmpty row.description)).map (fun part =>
        { propertyUri := dictGet uris "description",
          value := MetaValue.str part.value,
          lang := if truthy part.lang then part.lang else none,
          typeUri := some "http://www.w3.org/2001/XMLSchema#string" })
    else [])
  -- Subject/Keywords: `row.get('keywords') or row.get('subject')`
  let metas := metas ++
    (if truthy (pyOr row.keywords row.subject) then
      (parse_multilingual_field (orEmpty (pyOr row.keywords row.subject))).flatMap
        (fun part =>
          (parse_multiple_values part.value).map (fun keyword =>
            { propertyUri := dictGet uris "subject",
              value := MetaValue.str keyword,
              lang := if truthy part.lang then part.lang else none,
              typeUri := some "http://www.w3.org/2001/XMLSchema#string" }))
    else [])
  -- Creators
  let metas := metas ++
    (if truthy row.creator then parse_creator uris (orEmpty row.creator) else [])
  -- Contributors: parse_creator output with propertyUri rewritten
  let metas := metas ++
    (if truthy row.contributor then
      (parse_creator uris (orEmpty row.contributor)).map (fun contrib =>
        { contrib with propertyUri := dictGet uris "contributor" })
    else [])
  -- Created date: `row.get('date') or row.get('created')`
  let metas := metas ++
    (if truthy (pyOr row.date row.created) then
      [{ propertyUri := dictGet uris "created",
         value := MetaValue.str (pyStrip (orEmpty (pyOr row.date row.created))),
         typeUri := some "http://www.w3.org/2001/XMLSchema#string" }]
    else [])
  -- License
  let metas := metas ++
    (if truthy row.license then
      [{ propertyUri := dictGet uris "license",
         value := MetaValue.str (pyStrip (orEmpty row.license)),
         typeUri := some "http://www.w3.org/2001/XMLSchema#string" }]
    else [])
  -- Type
  let metas := metas ++
    (if truthy row.type then
      [{ propertyUri := dictGet uris "type",
         value := MetaValue.str (pyStrip (orEmpty row.type)),
         typeUri := some "http://purl.org/dc/terms/URI" }]
    else [])
  -- Language
  let metas := metas ++
    (if truthy row.language then
      [{ propertyUri := dictGet uris "language",
         value := MetaValue.str (pyStrip (orEmpty row.language)),
         typeUri := some "http://www.w3.org/2001/XMLSchema#string" }]
    else [])
  -- Temporal coverage (multilingual)
  let metas := metas ++
    (if truthy row.temporal then
      (parse_multilingual_field (orEmpty row.temporal)).map (fun part =>
        { propertyUri := dictGet uris "temporal",
          value := MetaValue.str part.value,
          lang := if truthy part.lang then part.lang else none,
          typeUri := some "http://www.w3.org/2001/XMLSchema#string" })
    else [])
  -- Spatial coverage (multilingual)
  let metas := metas ++
    (if truthy row.spatial then
      (parse_multilingual_field (orEmpty row.spatial)).map (fun part =>
        { propertyUri := dictGet uris "spatial",
          value := MetaValue.str part.value,
          lang := if truthy part.lang then part.lang else none,
          typeUri := some "http://www.w3.org/2001/XMLSchema#string" })
    else [])
  -- Access Rights
  let metas := metas ++
    (if truthy row.accessRights then
      [{ propertyUri := dictGet uris "accessRights",
         value := MetaValue.str (pyStrip (orEmpty row.accessRights)),
         typeUri := some "http://www.w3.org/2001/XMLSchema#string" }]
    else [])
  -- Identifier
  let metas := metas ++
    (if truthy row.identifier then
      [{ propertyUri := dictGet uris "identifier",
         value := MetaValue.str (pyStrip (orEmpty row.identifier)),
         typeUri := some "http://www.w3.org/2001/XMLSchema#string" }]
    else [])
  metas

/-- Entries contributed by the title block of `csv_row_to_nakala_metas`. -/
def titleBlock (uris : List (String × String)) (row : Row) : List Meta :=
  if truthy row.title then
    (parse_multilingual_field (orEmpty row.title)).map (fun part =>
      { propertyUri := dictGet uris "title", value := MetaValue.str part.value,
        lang := if truthy part.lang then part.lang else none })
  else []

/-- Entries contributed by the alternative-title block. -/
def alternativeBlock (uris : List (String × String)) (row : Row) : List Meta :=
  if truthy row.alternative then
    (parse_multilingual_field (orEmpty row.alternative)).map (fun part =>
      { propertyUri := dictGet uris "alternative",
        value := MetaValue.str part.value,
        lang := if truthy part.lang then part.lang else none,
        typeUri := some "http://www.w3.org/2001/XMLSchema#string" })
  else []

/-- Entries contributed by the description block. -/
def descriptionBlock (uris : List (String × String)) (row : Row) : List Meta :=
  if truthy row.description then
    (parse_multilingual_field (orEmpty row.description)).map (fun part =>
      { propertyUri := dictGet uris "description",
        value := MetaValue.str part.value,
        lang := if truthy part.lang then part.lang else none,
        typeUri := some "http://www.w3.org/2001/XMLSchema#string" })
  else []

/-- Entries contributed by the keywords/subject block. -/
def keywordsBlock (uris : List (String × String)) (row : Row) : List Meta :=
  if truthy (pyOr row.keywords row.subject) then
    (parse_multilingual_field (orEmpty (pyOr row.keywords row.subject))).flatMap
      (fun part =>
        (parse_multiple_values part.value).map (fun keyword =>
          { propertyUri := dictGet uris "subject",
            value := MetaValue.str keyword,
            lang := if truthy part.lang then part.lang else none,
            typeUri := some "http://www.w3.org/2001/XMLSchema#string" }))
  else []

/-- Entries contributed by the creator block. -/
def creatorBlock (uris : List (String × String)) (row : Row) : List Meta :=
  if truthy row.creator then parse_creator uris (orEmpty row.creator) else []

/-- Entries contributed by the contributor block. -/
def contributorBlock (uris : List (String × String)) (row : Row) : List Meta :=
  if truthy row.contributor then
    (parse_creator uris (orEmpty row.contributor)).map (fun contrib =>
      { contrib with propertyUri := dictGet uris "contributor" })
  else []

/-- Entry contributed by the created-date block. -/
def dateBlock (uris : List (String × String)) (row : Row) : List Meta :=
  if truthy (pyOr row.date row.created) then
    [{ propertyUri := dictGet uris "created",
       value := MetaValue.str (pyStrip (orEmpty (pyOr row.date row.created))),
       typeUri := some "http://www.w3.org/2001/XMLSchema#string" }]
  else []

/-- Entry contributed by the license block. -/
def licenseBlock (uris : List (String × String)) (row : Row) : List Meta :=
  if truthy row.license then
    [{ propertyUri := dictGet uris "license",
       value := MetaValue.str (pyStrip (orEmpty row.license)),
       typeUri := some "http://www.w3.org/2001/XMLSchema#string" }]
  else []

/-- Entry contributed by the type block. -/
def typeBlock (uris : List (String × String)) (row : Row) : List Meta :=
  if truthy row.type then
    [{ propertyUri := dictGet uris "type",
       value := MetaValue.str (pyStrip (orEmpty row.type)),
       typeUri := some "http://purl.org/dc/terms/URI" }]
  else []

/-- Entry contributed by the language block. -/
def languageBlock (uris : List (String × String)) (row : Row) : List Meta :=
  if truthy row.language then
    [{ propertyUri := dictGet uris "language",
       value := MetaValue.str (pyStrip (orEmpty row.language)),
       typeUri := some "http://www.w3.org/2001/XMLSchema#string" }]
  else []

/-- Entries contributed by the temporal block. -/
def temporalBlock (uris : List (String × String)) (row : Row) : List Meta :=
  if truthy row.temporal then
    (parse_multilingual_field (orEmpty row.temporal)).map (fun part =>
      { propertyUri := dictGet uris "temporal",
        value := MetaValue.str part.value,
        lang := if truthy part.lang then part.lang else none,
        typeUri := some "http://www.w3.org/2001/XMLSchema#string" })
  else []

/-- Entries contributed by the spatial block. -/
def spatialBlock (uris : List (String × String)) (row : Row) : List Meta :=
  if truthy row.spatial then
    (parse_multilingual_field (orEmpty row.spatial)).map (fun part =>
      { propertyUri := dictGet uris "spatial",
        value := MetaValue.str part.value,
        lang := if truthy part.lang then part.lang else none,
        typeUri := some "http://www.w3.org/2001/XMLSchema#string" })
  else []

/-- Entry contributed by the access-rights block. -/
def accessRightsBlock (uris : List (String × String)) (row : Row) : List Meta :=
  if truthy row.accessRights then
    [{ propertyUri := dictGet uris "accessRights",
       value := MetaValue.str (pyStrip (orEmpty row.accessRights)),
       typeUri := some "http://www.w3.org/2001/XMLSchema#string" }]
  else []

/-- Entry contributed by the identifier block. -/
def identifierBlock (uris : List (String × String)) (row : Row) : List Meta :=
  if truthy row.identifier then
    [{ propertyUri := dictGet uris "identifier",
       value := MetaValue.str (pyStrip (orEmpty row.identifier)),
       typeUri := some "http://www.w3.org/2001/XMLSchema#string" }]
  else []

/-- The `required_uris` list of `CsvConverter.validate_dataset`. -/
def requiredUrisOf (uris : List (String × String)) : List String :=
  [dictGet uris "title", dictGet uris "type", dictGet uris "creator",
   dictGet uris "created", dictGet uris "license"]

/-- The `for uri in required_uris:` loop of `CsvConverter.validate_dataset`
(an append per required URI missing from `found_uris`), written as
filter-then-map. -/
def missingFieldErrors (uris : List (String × String)) (metas : List Meta) :
    List String :=
  ((requiredUrisOf uris).filter
      (fun uri => ¬ (metas.map (fun m => m.propertyUri)).contains uri)).map
    (fun uri =>
      "Missing required field for published status: " ++ keyForUri uris uri)

/-- `CsvConverter.validate_dataset`.  Returns `none` on the one path where the
Python code raises (`type_value.startswith` called on a creator dict); every
other path returns `some (len(errors) == 0, errors)`. -/
def validate_dataset (uris : List (String × String)) (dataset : Dataset) :
    Option (Bool × List String) :=
  if dataset.status = some "published" then
    let missingErrs := missingFieldErrors uris dataset.metas
    match dataset.metas.filter
        (fun m => m.propertyUri == dictGet uris "type") with
    | [] => some (missingErrs.isEmpty, missingErrs)
    | m :: _ =>
      match m.value with
      | MetaValue.str v =>
        let errs := missingErrs ++
          (if strStarts v "http://" then []
           else ["Type must be full COAR URI, not \x27" ++ v ++ "\x27"])
        some (errs.isEmpty, errs)
      | MetaValue.creator _ => none
  else
    some (true, [])

/-- The converter object's state: its only instance attribute. -/
structure ConvState where
  property_uris : List (String × String)
  deriving Repr, DecidableEq

/-- `CsvConverter.__init__`. -/
def CsvConverter.init : ConvState := { property_uris := init_property_uris }

/-- `csv_row_to_nakala_metas` as a method: it reads `self.property_uris` and
contains no assignment to `self`, so the translated method returns the state
it was given. -/
def csv_row_to_nakala_metasS (st : ConvState) (row : Row) :
    List Meta × ConvState :=
  (csv_row_to_nakala_metas st.property_uris row, st)

/-- Concrete published-dataset metas (title, type, creator and created present; license missing) used by the claim C1 witness. -/
def wMetas : List Meta :=
  [{ propertyUri := "http://nakala.fr/terms#title", value := MetaValue.str "T" },
   { propertyUri := "http://nakala.fr/terms#type",
     value := MetaValue.str "http://purl.org/coar/resource_type/c_c513",
     typeUri := some "http://purl.org/dc/terms/URI" },
   { propertyUri := "http://nakala.fr/terms#creator",
     value := MetaValue.creator
       { givenname := "J", surname := "D", fullName := "J D", orcid := none } },
   { propertyUri := "http://nakala.fr/terms#created", value := MetaValue.str "2024-01-01" }]

/-- Concrete creator value used by the claim C8 witness. -/
def wCreatorVal : CreatorValue :=
  { givenname := "John", surname := "Dupont", fullName := "John Dupont",
    orcid := some "0000-0001-2345-6789" }

/-- Any string returned by `normalize_orcid` matches the ORCID pattern. -/
theorem normalize_orcid_sound (s r : String) (h : normalize_orcid s = some r) :
    isOrcidFormat r = true := by
  unfold normalize_orcid at h
  split at h
  · exact absurd h (by simp)
  · split at h
    · rename_i hfmt
      cases h
      exact hfmt
    · exact absurd h (by simp)

/-- The `fullName` of a built creator value is the stripped concatenation of given name and surname (or the surname alone when the given name is empty). -/
theorem mkCreatorValue_fullName (name0 : String) :
    (mkCreatorValue name0).fullName =
      (if (mkCreatorValue name0).givenname ≠ "" then
        pyStrip ((mkCreatorValue name0).givenname ++ " " ++ (mkCreatorValue name0).surname)
      else (mkCreatorValue name0).surname) := rfl

/-- An `orcid` key present on a built creator value matches the ORCID pattern. -/
theorem mkCreatorValue_orcid_sound (name0 : String) (o : String)
    (h : (mkCreatorValue name0).orcid = some o) : isOrcidFormat o = true := by
  have h' : (if truthy (creatorNameOrcid (pyStrip name0)).2 then
      (creatorNameOrcid (pyStrip name0)).2 else none) = some o := h
  split at h'
  · rename_i htr
    unfold creatorNameOrcid at h'
    rcases hm : orcidGroupMatch (pyStrip name0) with _ | ⟨g1, g2⟩
    · rw [hm] at h'
      exact absurd h' (by simp)
    · rw [hm] at h'
      exact normalize_orcid_sound g2 o h'
  · exact absurd h' (by simp)

/-- Every entry of `parse_creator` is built by `mkCreatorMeta` from some name. -/
theorem mem_parse_creator {uris : List (String × String)} {value : String}
    {e : Meta} (h : e ∈ parse_creator uris value) :
    ∃ name, e = mkCreatorMeta uris name := by
  unfold parse_creator at h
  split at h
  · exact absurd h (List.not_mem_nil e)
  · obtain ⟨lp, _, hml⟩ := List.mem_flatMap.mp h
    obtain ⟨name, _, rfl⟩ := List.mem_map.mp hml
    exact ⟨name, rfl⟩

/-- The function `csv_row_to_nakala_metas` is the concatenation of its fourteen per-field blocks, in source order. -/
theorem csv_row_blocks_eq (uris : List (String × String)) (row : Row) :
    csv_row_to_nakala_metas uris row =
      titleBlock uris row ++ alternativeBlock uris row ++ descriptionBlock uris row ++
      keywordsBlock uris row ++ creatorBlock uris row ++ contributorBlock uris row ++
      dateBlock uris row ++ licenseBlock uris row ++ typeBlock uris row ++
      languageBlock uris row ++ temporalBlock uris row ++ spatialBlock uris row ++
      accessRightsBlock uris row ++ identifierBlock uris row := by
  simp [csv_row_to_nakala_metas, titleBlock, alternativeBlock, descriptionBlock,
    keywordsBlock, creatorBlock, contributorBlock, dateBlock, licenseBlock,
    typeBlock, languageBlock, temporalBlock, spatialBlock, accessRightsBlock,
    identifierBlock, List.append_assoc]

/-- Entries of the non-creator blocks carry plain string values. -/
theorem str_block_values (uris : List (String × String)) (row : Row) (e : Meta)
    (h : e ∈ titleBlock uris row ∨ e ∈ alternativeBlock uris row ∨
      e ∈ descriptionBlock uris row ∨ e ∈ keywordsBlock uris row ∨
      e ∈ dateBlock uris row ∨ e ∈ licenseBlock uris row ∨
      e ∈ typeBlock uris row ∨ e ∈ languageBlock uris row ∨
      e ∈ temporalBlock uris row ∨ e ∈ spatialBlock uris row ∨
      e ∈ accessRightsBlock uris row ∨ e ∈ identifierBlock uris row) :
    ∃ s, e.value = MetaValue.str s := by
  rcases h with h|h|h|h|h|h|h|h|h|h|h|h <;>
  · simp only [titleBlock, alternativeBlock, descriptionBlock, keywordsBlock,
      dateBlock, licenseBlock, typeBlock, languageBlock, temporalBlock,
      spatialBlock, accessRightsBlock, identifierBlock] at h
    split at h
    · first
      | (obtain ⟨part, _, rfl⟩ := List.mem_map.mp h; exact ⟨_, rfl⟩)
      | (obtain ⟨part, _, hmm2⟩ := List.mem_flatMap.mp h;
         obtain ⟨kw, _, rfl⟩ := List.mem_map.mp hmm2; exact ⟨_, rfl⟩)
      | (simp only [List.mem_singleton] at h; subst h; exact ⟨_, rfl⟩)
    · exact absurd h (List.not_mem_nil e)

/-- A digit, hyphen or `X` character is not whitespace and is not the letter h. -/
theorem orcid_char_facts (c : Char) (h : (c.isDigit || c = '-' || c = 'X') = true) :
    isWsChar c = false ∧ c ≠ 'h' := by
  simp only [Bool.or_eq_true, decide_eq_true_eq] at h
  rcases h with (hd | hdash) | hX
  · constructor
    · unfold isWsChar
      by_contra hw
      rw [Bool.not_eq_false] at hw
      simp [Char.isWhitespace, or_assoc] at hw
      rcases hw with rfl | rfl | rfl | rfl <;> exact absurd hd (by decide)
    · rintro rfl
      exact absurd hd (by decide)
  · subst hdash
    exact ⟨by decide, by decide⟩
  · subst hX
    exact ⟨by decide, by decide⟩

/-- Every character of a string matching the ORCID pattern is a digit, a hyphen or `X`. -/
theorem isOrcidFormat_chars (s : String) (hfmt : isOrcidFormat s = true) :
    ∀ c ∈ s.data, (c.isDigit || c = '-' || c = 'X') = true := by
  unfold isOrcidFormat at hfmt
  split at hfmt
  case _ a b c d h1 e f g h h2 i j k l h3 m n o p heq =>
    intro x hx
    rw [heq] at hx
    simp only [Bool.and_eq_true, decide_eq_true_eq, List.all_eq_true,
      Bool.or_eq_true] at hfmt
    obtain ⟨⟨⟨⟨e1, e2⟩, e3⟩, hall⟩, hp⟩ := hfmt
    simp only [List.mem_cons, List.not_mem_nil, or_false] at hx
    rcases hx with rfl|rfl|rfl|rfl|rfl|rfl|rfl|rfl|rfl|rfl|rfl|rfl|rfl|rfl|rfl|rfl|rfl|rfl|rfl
    all_goals first
      | (subst e1; decide)
      | (subst e2; decide)
      | (subst e3; decide)
      | (rcases hp with hp | hp
         · simp [hp]
         · subst hp; decide)
      | simp [hall]
  case _ =>
    exact absurd hfmt (by simp)

/-- Dropping by a predicate is the identity when the predicate fails on every element. -/
theorem dropWhile_eq_self_of_all (p : Char → Bool) (l : List Char)
    (h : ∀ c ∈ l, p c = false) : l.dropWhile p = l := by
  cases l with
  | nil => rfl
  | cons x xs =>
    rw [List.dropWhile_cons, if_neg]
    simp [h x (by simp)]

/-- Stripping is the identity on a list with no whitespace characters. -/
theorem trimChars_no_ws (l : List Char) (h : ∀ c ∈ l, isWsChar c = false) :
    trimChars l = l := by
  unfold trimChars
  rw [dropWhile_eq_self_of_all isWsChar l h,
    dropWhile_eq_self_of_all isWsChar l.reverse
      (fun c hc => h c (List.mem_reverse.mp hc)),
    List.reverse_reverse]

/-- A list is a prefix of itself followed by anything. -/
theorem isPrefixOf_append_self (l1 l2 : List Char) :
    l1.isPrefixOf (l1 ++ l2) = true := by
  induction l1 with
  | nil => simp [List.isPrefixOf]
  | cons x xs ih => simp [List.isPrefixOf, ih]

/-- Replacement is the identity when the first pattern character occurs nowhere in the scanned list. -/
theorem replaceAllAux_no_match (pat rep : List Char) (p : Char)
    (hp : pat.head? = some p) :
    ∀ (fuel : Nat) (cs : List Char), (∀ c ∈ cs, c ≠ p) →
      replaceAllAux pat rep fuel cs = cs := by
  rcases pat with _ | ⟨q, pt⟩
  · cases hp
  · cases hp
    intro fuel
    induction fuel with
    | zero => intro cs _; rfl
    | succ n ih =>
      intro cs h
      rcases cs with _ | ⟨x, xs⟩
      · rfl
      · have hx : (p == x) = false :=
          beq_eq_false_iff_ne.mpr (Ne.symm (h x (by simp)))
        simp only [replaceAllAux, List.isPrefixOf, hx, Bool.false_and,
          Bool.and_eq_true, if_neg]
        rw [ih xs (fun c hc => h c (by simp [hc]))]
        simp

/-- Replacement of a list starting with the pattern substitutes the pattern and continues after it. -/
theorem replaceAllAux_start (pat rep tail : List Char) (f : Nat)
    (hp : pat ≠ []) :
    replaceAllAux pat rep (f + 1) (pat ++ tail) =
      rep ++ replaceAllAux pat rep f tail := by
  rcases pat with _ | ⟨p, pt⟩
  · exact absurd rfl hp
  · have hpre : (p :: pt).isPrefixOf (p :: (pt ++ tail)) = true := by
      have := isPrefixOf_append_self (p :: pt) tail
      rwa [List.cons_append] at this
    rw [List.cons_append]
    simp only [replaceAllAux, hpre, if_pos]
    congr 1
    rw [show (p :: (pt ++ tail)) = (p :: pt) ++ tail by simp]
    rw [List.drop_left]

/-- The function `normalize_orcid` strips the secure URL prefix from any directly prefixed well-formed ORCID. -/
theorem normalize_orcid_url_clean (core : String) (h : isOrcidFormat core = true) :
    normalize_orcid ("https://orcid.org/" ++ core) = some core := by
  have hchars := isOrcidFormat_chars core h
  have hfacts : ∀ c ∈ core.data, isWsChar c = false ∧ c ≠ 'h' :=
    fun c hc => orcid_char_facts c (hchars c hc)
  have hdata : ("https://orcid.org/" ++ core).data =
      "https://orcid.org/".data ++ core.data := rfl
  have hstrip : pyStrip ("https://orcid.org/" ++ core) =
      "https://orcid.org/" ++ core := by
    unfold pyStrip
    rw [hdata, trimChars_no_ws]
    · rfl
    · have hpre : ∀ c ∈ "https://orcid.org/".data, isWsChar c = false := by decide
      intro c hc
      rcases List.mem_append.mp hc with h1 | h2
      · exact hpre c h1
      · exact (hfacts c h2).1
  have hne : ("https://orcid.org/" ++ core) ≠ "" := by
    intro hh
    have hd2 : ("https://orcid.org/" ++ core).data = "".data := by rw [hh]
    rw [hdata] at hd2
    rcases List.append_eq_nil.mp hd2 with ⟨h1, -⟩
    exact absurd h1 (by decide)
  have hrepl : pyReplaceAll ("https://orcid.org/" ++ core)
      "https://orcid.org/" "" = core := by
    unfold pyReplaceAll
    rw [hdata, List.length_append]
    rw [show ("https://orcid.org/".data).length = 18 from rfl]
    rw [Nat.add_comm 18 core.data.length]
    rw [show core.data.length + 18 = (core.data.length + 17) + 1 from rfl]
    rw [replaceAllAux_start _ _ _ _ (by decide)]
    rw [replaceAllAux_no_match ("https://orcid.org/".data) ("".data) 'h'
      (by decide) _ _ (fun c hc => (hfacts c hc).2)]
    rfl
  have hcand : orcidCandidate ("https://orcid.org/" ++ core) = core := by
    show (let orcid := pyStrip ("https://orcid.org/" ++ core)
          if strStarts orcid "https://orcid.org/" then
            pyReplaceAll orcid "https://orcid.org/" ""
          else if strStarts orcid "http://orcid.org/" then
            pyReplaceAll orcid "http://orcid.org/" ""
          else if strStarts (pyUpper orcid) "ORCID:" then
            pyStrip (strDrop orcid 6)
          else orcid) = core
    simp only [hstrip]
    rw [if_pos]
    · exact hrepl
    · unfold strStarts
      rw [hdata]
      exact isPrefixOf_append_self _ _
  unfold normalize_orcid
  rw [if_neg hne, hcand, if_pos h]

/-- Claim C1: for a published dataset, `validate_dataset` reports one human-readable error naming each of the five mandated fields (title, type, creator, created, license) whose property URI is missing from the metas, with first component False; in particular a missing license yields the license error; and when every mandated URI is present and the first type value is a string passing the URI check, it returns `(True, [])`. -/
theorem validate_dataset_published_required_fields (metas : List Meta) :
    (∀ k, k ∈ (["title", "type", "creator", "created", "license"] : List String) →
      dictGet init_property_uris k ∉ metas.map (fun m => m.propertyUri) →
      ∀ r, validate_dataset init_property_uris
          { status := some "published", metas := metas } = some r →
        r.1 = false ∧
        ("Missing required field for published status: " ++ k) ∈ r.2)
  ∧ (dictGet init_property_uris "license" ∉ metas.map (fun m => m.propertyUri) →
      ∀ r, validate_dataset init_property_uris
          { status := some "published", metas := metas } = some r →
        r.1 = false ∧
        "Missing required field for published status: license" ∈ r.2)
  ∧ ((∀ k, k ∈ (["title", "type", "creator", "created", "license"] : List String) →
        dictGet init_property_uris k ∈ metas.map (fun m => m.propertyUri)) →
     (∀ m rest, metas.filter
          (fun m => m.propertyUri == dictGet init_property_uris "type") = m :: rest →
        ∃ v, m.value = MetaValue.str v ∧ strStarts v "http://" = true) →
     validate_dataset init_property_uris
       { status := some "published", metas := metas } = some (true, [])) := by
  have hmiss : ∀ k, k ∈ (["title", "type", "creator", "created", "license"] : List String) →
      dictGet init_property_uris k ∉ metas.map (fun m => m.propertyUri) →
      ("Missing required field for published status: " ++ k) ∈
        missingFieldErrors init_property_uris metas := by
    intro k hk hnm
    have hcont : ((metas.map (fun m => m.propertyUri)).contains
        (dictGet init_property_uris k)) = false := by
      simp [List.elem_eq_mem, hnm]
    have huri : dictGet init_property_uris k ∈ requiredUrisOf init_property_uris ∧
        keyForUri init_property_uris (dictGet init_property_uris k) = k := by
      simp only [List.mem_cons, List.not_mem_nil, or_false] at hk
      rcases hk with rfl | rfl | rfl | rfl | rfl
      · exact ⟨by decide, by decide⟩
      · exact ⟨by decide, by decide⟩
      · exact ⟨by decide, by decide⟩
      · exact ⟨by decide, by decide⟩
      · exact ⟨by decide, by decide⟩
    unfold missingFieldErrors
    refine List.mem_map.mpr ⟨dictGet init_property_uris k,
      List.mem_filter.mpr ⟨huri.1, ?_⟩, by rw [huri.2]⟩
    simpa [List.elem_eq_mem] using hnm
  have partA : ∀ k, k ∈ (["title", "type", "creator", "created", "license"] : List String) →
      dictGet init_property_uris k ∉ metas.map (fun m => m.propertyUri) →
      ∀ r, validate_dataset init_property_uris
          { status := some "published", metas := metas } = some r →
        r.1 = false ∧
        ("Missing required field for published status: " ++ k) ∈ r.2 := by
    intro k hk hnm r hr
    have hmsg := hmiss k hk hnm
    have hne : missingFieldErrors init_property_uris metas ≠ [] :=
      List.ne_nil_of_mem hmsg
    unfold validate_dataset at hr
    dsimp only at hr
    rw [if_pos rfl] at hr
    rcases hfm : metas.filter
        (fun m => m.propertyUri == dictGet init_property_uris "type") with _ | ⟨m, rest⟩
    · rw [hfm] at hr
      dsimp only at hr
      cases hr
      constructor
      · rcases hme : missingFieldErrors init_property_uris metas with _ | ⟨x, xs⟩
        · exact absurd hme hne
        · simp [hme]
      · exact hmsg
    · rw [hfm] at hr
      dsimp only at hr
      rcases hmv : m.value with v | c
      · rw [hmv] at hr
        dsimp only at hr
        cases hr
        constructor
        · rcases hme : missingFieldErrors init_property_uris metas with _ | ⟨x, xs⟩
          · exact absurd hme hne
          · simp [hme]
        · exact List.mem_append_left _ hmsg
      · rw [hmv] at hr
        exact absurd hr (by simp)
  refine ⟨partA, ?_, ?_⟩
  · intro hnm r hr
    have h2 := partA "license" (by decide) hnm r hr
    have heq : "Missing required field for published status: " ++ "license" =
        "Missing required field for published status: license" := rfl
    rw [heq] at h2
    exact h2
  · intro hall htype
    have hmissnil : missingFieldErrors init_property_uris metas = [] := by
      unfold missingFieldErrors
      rw [List.map_eq_nil_iff, List.filter_eq_nil_iff]
      intro a ha
      unfold requiredUrisOf at ha
      simp only [List.mem_cons, List.not_mem_nil, or_false] at ha
      rcases ha with rfl | rfl | rfl | rfl | rfl
      · simpa [List.elem_eq_mem] using hall "title" (by decide)
      · simpa [List.elem_eq_mem] using hall "type" (by decide)
      · simpa [List.elem_eq_mem] using hall "creator" (by decide)
      · simpa [List.elem_eq_mem] using hall "created" (by decide)
      · simpa [List.elem_eq_mem] using hall "license" (by decide)
    have htmem : dictGet init_property_uris "type" ∈
        metas.map (fun m => m.propertyUri) := hall "type" (by decide)
    obtain ⟨m0, hm0, hpm⟩ := List.mem_map.mp htmem
    have hmf : m0 ∈ metas.filter
        (fun m => m.propertyUri == dictGet init_property_uris "type") :=
      List.mem_filter.mpr ⟨hm0, by simp [hpm]⟩
    rcases hfm : metas.filter
        (fun m => m.propertyUri == dictGet init_property_uris "type") with _ | ⟨m, rest⟩
    · rw [hfm] at hmf
      exact absurd hmf (List.not_mem_nil m0)
    · obtain ⟨v, hv, hstart⟩ := htype m rest hfm
      unfold validate_dataset
      dsimp only
      rw [if_pos rfl, hfm]
      dsimp only
      rw [hv]
      simp [hmissnil, hstart]

/-- Witness for claim C1: a concrete published dataset with title, type, creator and created but no license validates to False with the license error. -/
theorem validate_dataset_published_required_fields_w :
    ((false, ["Missing required field for published status: license"]) :
        Bool × List String).1 = false ∧
    "Missing required field for published status: license" ∈
      ((false, ["Missing required field for published status: license"]) :
        Bool × List String).2 :=
  (validate_dataset_published_required_fields wMetas).2.1 (by decide)
    (false, ["Missing required field for published status: license"]) (by decide)

/-- Counterexample for claim C2: a published dataset whose five mandated fields are all present and whose type value is the absolute URI of scheme https is rejected with a type error, although the claim says every absolute URI (including one of scheme https) passes the type check. -/
theorem validate_dataset_type_https_cex :
    strStarts "https://purl.org/coar/resource_type/c_c513" "https://" = true ∧
    validate_dataset init_property_uris
      { status := some "published",
        metas :=
          [{ propertyUri := "http://nakala.fr/terms#title", value := MetaValue.str "T" },
           { propertyUri := "http://nakala.fr/terms#type",
             value := MetaValue.str "https://purl.org/coar/resource_type/c_c513",
             typeUri := some "http://purl.org/dc/terms/URI" },
           { propertyUri := "http://nakala.fr/terms#creator",
             value := MetaValue.creator
               { givenname := "J", surname := "D", fullName := "J D", orcid := none } },
           { propertyUri := "http://nakala.fr/terms#created", value := MetaValue.str "2024-01-01" },
           { propertyUri := "http://nakala.fr/terms#license", value := MetaValue.str "CC-BY-4.0" }] } =
      some (false,
        ["Type must be full COAR URI, not \x27https://purl.org/coar/resource_type/c_c513\x27"]) := by
  decide

/-- Claim C2 (amended): for a published dataset whose first type-property meta holds the string v, `validate_dataset` appends a type error exactly when v does not start with the literal scheme prefix of http (so https values are rejected), after the missing-field errors. -/
theorem validate_dataset_type_check_http (metas : List Meta) (m : Meta)
    (rest : List Meta) (v : String)
    (hf : metas.filter (fun m => m.propertyUri == dictGet init_property_uris "type") = m :: rest)
    (hv : m.value = MetaValue.str v) :
    validate_dataset init_property_uris { status := some "published", metas := metas } =
      some
        ((missingFieldErrors init_property_uris metas ++
            (if strStarts v "http://" then []
             else ["Type must be full COAR URI, not \x27" ++ v ++ "\x27"])).isEmpty,
         missingFieldErrors init_property_uris metas ++
           (if strStarts v "http://" then []
            else ["Type must be full COAR URI, not \x27" ++ v ++ "\x27"])) := by
  unfold validate_dataset
  dsimp only
  rw [if_pos rfl, hf]
  dsimp only
  rw [hv]

/-- Witness for claim C2 (amended) at a concrete dataset whose single meta is a type entry with an https value. -/
theorem validate_dataset_type_check_http_w :
    validate_dataset init_property_uris
      { status := some "published",
        metas := [{ propertyUri := "http://nakala.fr/terms#type",
                    value := MetaValue.str "https://x",
                    typeUri := some "http://purl.org/dc/terms/URI" }] } =
      some
        ((missingFieldErrors init_property_uris
            [{ propertyUri := "http://nakala.fr/terms#type",
               value := MetaValue.str "https://x",
               typeUri := some "http://purl.org/dc/terms/URI" }] ++
            (if strStarts "https://x" "http://" then []
             else ["Type must be full COAR URI, not \x27https://x\x27"])).isEmpty,
         missingFieldErrors init_property_uris
            [{ propertyUri := "http://nakala.fr/terms#type",
               value := MetaValue.str "https://x",
               typeUri := some "http://purl.org/dc/terms/URI" }] ++
           (if strStarts "https://x" "http://" then []
            else ["Type must be full COAR URI, not \x27https://x\x27"])) :=
  validate_dataset_type_check_http
    [{ propertyUri := "http://nakala.fr/terms#type",
       value := MetaValue.str "https://x",
       typeUri := some "http://purl.org/dc/terms/URI" }]
    { propertyUri := "http://nakala.fr/terms#type",
      value := MetaValue.str "https://x",
      typeUri := some "http://purl.org/dc/terms/URI" }
    [] "https://x" (by decide) rfl

/-- Claim C3: a non-blank input with neither pipe nor colon parses to a single entry with null lang and the trimmed input as value; a non-blank input containing a pipe or a colon is split on pipes, and each trimmed segment is split at its first colon into a trimmed (lang, value) pair, with null lang when the segment has no colon; the two examples from the specification evaluate as stated. -/
theorem parse_multilingual_field_spec :
    (∀ value : String, pyStrip value ≠ "" → pyContains value '|' = false →
      pyContains value ':' = false →
      parse_multilingual_field value = [{ lang := none, value := pyStrip value }])
  ∧ (∀ value : String, pyStrip value ≠ "" →
      (pyContains value '|' = true ∨ pyContains value ':' = true) →
      parse_multilingual_field value = (pySplit value '|').map (fun part0 =>
        match splitFirstOn (pyStrip part0) ':' with
        | some (lang, text) => { lang := some (pyStrip lang), value := pyStrip text }
        | none => { lang := none, value := pyStrip part0 }))
  ∧ parse_multilingual_field "en: A | fr: B" =
      [{ lang := some "en", value := "A" }, { lang := some "fr", value := "B" }]
  ∧ parse_multilingual_field "Plain" = [{ lang := none, value := "Plain" }] := by
  refine ⟨?_, ?_, by decide, by decide⟩
  · intro value h1 h2 h3
    unfold parse_multilingual_field
    rw [if_neg, if_pos]
    · exact ⟨by simp [h2], by simp [h3]⟩
    · rintro (rfl | hc)
      · exact h1 rfl
      · exact h1 hc
  · intro value h1 h2
    unfold parse_multilingual_field
    rw [if_neg, if_neg]
    · rintro ⟨ha, hb⟩
      rcases h2 with h2 | h2
      · exact ha h2
      · exact hb h2
    · rintro (rfl | hc)
      · exact h1 rfl
      · exact h1 hc

/-- Witness for claim C3: the no-pipe-no-colon branch at a concrete input. -/
theorem parse_multilingual_field_spec_w :
    parse_multilingual_field "Hello" = [{ lang := none, value := pyStrip "Hello" }] :=
  parse_multilingual_field_spec.1 "Hello" (by decide) (by decide) (by decide)

/-- Counterexample for claim C4: for the input with a space between the URL prefix and the digits, the remaining trimmed string after the leading 18-character prefix matches the ORCID pattern, yet `normalize_orcid` returns None because the code removes the prefix by global replacement without re-trimming. -/
theorem normalize_orcid_space_cex :
    pyStrip (strDrop "https://orcid.org/ 0000-0001-2345-6789" 18) =
      "0000-0001-2345-6789" ∧
    isOrcidFormat "0000-0001-2345-6789" = true ∧
    normalize_orcid "https://orcid.org/ 0000-0001-2345-6789" = none := by decide

/-- Claim C4 (amended): `normalize_orcid` returns only strings matching the ORCID pattern; it strips the URL prefix by replacing every occurrence without re-trimming (so any directly prefixed well-formed ORCID normalizes, a space after the prefix yields None, and an embedded second prefix is also removed), strips a case-insensitive ORCID label with re-trimming, and the specification examples evaluate as stated. -/
theorem normalize_orcid_spec :
    (∀ s r, normalize_orcid s = some r → isOrcidFormat r = true)
  ∧ (∀ core, isOrcidFormat core = true →
      normalize_orcid ("https://orcid.org/" ++ core) = some core)
  ∧ normalize_orcid "https://orcid.org/0000-0001-2345-6789" =
      some "0000-0001-2345-6789"
  ∧ normalize_orcid "http://orcid.org/0000-0001-2345-6789" =
      some "0000-0001-2345-6789"
  ∧ normalize_orcid "orcid:0000-0001-2345-6789" = some "0000-0001-2345-6789"
  ∧ normalize_orcid "0000-0001-2345-6789" = some "0000-0001-2345-6789"
  ∧ normalize_orcid "bad" = none
  ∧ normalize_orcid "https://orcid.org/ 0000-0001-2345-6789" = none
  ∧ normalize_orcid "https://orcid.org/0000-0001-https://orcid.org/2345-6789" =
      some "0000-0001-2345-6789" :=
  ⟨normalize_orcid_sound, normalize_orcid_url_clean, by decide, by decide,
   by decide, by decide, by decide, by decide, by decide⟩

/-- Witness for claim C4 (amended): the clean-prefix clause at a concrete well-formed ORCID. -/
theorem normalize_orcid_spec_w :
    normalize_orcid ("https://orcid.org/" ++ "0000-0002-1825-0097") =
      some "0000-0002-1825-0097" :=
  normalize_orcid_spec.2.1 "0000-0002-1825-0097" (by decide)

/-- Claim C5: `parse_creator` is the composition of the multilingual split with the semicolon multi-value split, producing exactly one creator metadata entry per name via `mkCreatorMeta` (which extracts a trailing parenthesized ORCID by the anchored regex and splits on the first comma); the specification example yields one entry with surname Dupont, given name John and the ORCID set. -/
theorem parse_creator_spec :
    (∀ (uris : List (String × String)) (value : String),
      parse_creator uris value =
        (parse_multilingual_field value).flatMap (fun lang_part =>
          (parse_multiple_values lang_part.value).map (mkCreatorMeta uris)))
  ∧ parse_creator init_property_uris "Dupont, John (0000-0001-2345-6789)" =
      [{ propertyUri := "http://nakala.fr/terms#creator",
         value := MetaValue.creator
           { givenname := "John", surname := "Dupont",
             fullName := "John Dupont",
             orcid := some "0000-0001-2345-6789" } }] := by
  constructor
  · intro uris value
    unfold parse_creator
    split
    · rename_i hblank
      unfold parse_multilingual_field
      rw [if_pos hblank]
      rfl
    · rfl
  · decide

/-- Claim C6: the converter functions are total Lean functions, so every input returns a value; a creator name whose trailing 19-character parenthesized group fails ORCID validation yields an entry with no orcid key; malformed multilingual, multi-value, ORCID, creator and row inputs all evaluate to ordinary results. -/
theorem converter_no_raise_spec :
    (∀ (name g1 g2 : String), orcidGroupMatch (pyStrip name) = some (g1, g2) →
      normalize_orcid g2 = none → (mkCreatorValue name).orcid = none)
  ∧ parse_creator init_property_uris "Dupont, John (000000000000000000X)" =
      [{ propertyUri := "http://nakala.fr/terms#creator",
         value := MetaValue.creator
           { givenname := "John", surname := "Dupont",
             fullName := "John Dupont", orcid := none } }]
  ∧ parse_multilingual_field "a |:: b |" =
      [{ lang := none, value := "a" }, { lang := some "", value := ": b" },
       { lang := none, value := "" }]
  ∧ parse_multiple_values " ; ; " = []
  ∧ normalize_orcid "ORCID:xyz" = none
  ∧ parse_creator init_property_uris "((((" =
      [{ propertyUri := "http://nakala.fr/terms#creator",
         value := MetaValue.creator
           { givenname := "", surname := "((((", fullName := "((((",
             orcid := none } }]
  ∧ csv_row_to_nakala_metas init_property_uris
      { title := some "|||", creator := some ";;;" } =
      [{ propertyUri := "http://nakala.fr/terms#title", value := MetaValue.str "" },
       { propertyUri := "http://nakala.fr/terms#title", value := MetaValue.str "" },
       { propertyUri := "http://nakala.fr/terms#title", value := MetaValue.str "" },
       { propertyUri := "http://nakala.fr/terms#title", value := MetaValue.str "" }] := by
  refine ⟨?_, by decide, by decide, by decide, by decide, by decide, by decide⟩
  intro name g1 g2 hm hn
  have hc : creatorNameOrcid (pyStrip name) = (pyStrip g1, normalize_orcid g2) := by
    unfold creatorNameOrcid
    rw [hm]
  show (if truthy (creatorNameOrcid (pyStrip name)).2 then
      (creatorNameOrcid (pyStrip name)).2 else none) = none
  rw [hc]
  dsimp only
  rw [hn]
  rfl

/-- Witness for claim C6: the orcid-omission clause at a concrete name with an invalid 19-character group. -/
theorem converter_no_raise_spec_w :
    (mkCreatorValue "Dupont, John (000000000000000000X)").orcid = none :=
  converter_no_raise_spec.1 "Dupont, John (000000000000000000X)"
    "Dupont, John " "000000000000000000X" (by decide) (by decide)

/-- Claim C7: `csv_row_to_nakala_metas` leaves the converter state (its property-URI table) unchanged, and calling it again on the returned state with the same row yields the identical result. -/
theorem csv_row_no_hidden_state (st : ConvState) (row : Row) :
    (csv_row_to_nakala_metasS st row).2 = st ∧
    csv_row_to_nakala_metasS ((csv_row_to_nakala_metasS st row).2) row =
      csv_row_to_nakala_metasS st row :=
  ⟨rfl, rfl⟩

/-- Counterexample for claim C8: for the name consisting of a comma followed by John, the produced creator record has a non-empty given name, an empty surname and fullName John, not the claimed concatenation John followed by a space. -/
theorem parse_creator_fullName_cex :
    parse_creator init_property_uris ",John" =
      [{ propertyUri := "http://nakala.fr/terms#creator",
         value := MetaValue.creator
           { givenname := "John", surname := "", fullName := "John",
             orcid := none } }] ∧
    "John" ≠ "John" ++ " " ++ "" := by decide

/-- Claim C8 (amended): every creator record produced by `parse_creator` (and any creator-valued entry produced by `csv_row_to_nakala_metas`, which covers the creator and contributor fields) has fullName equal to the stripped concatenation of given name, a space and surname when the given name is non-empty, and to the surname otherwise; its orcid key, when present, matches the 19-character ORCID pattern. -/
theorem creator_record_invariant (uris : List (String × String)) :
    (∀ (value : String) (e : Meta) (cv : CreatorValue),
      e ∈ parse_creator uris value → e.value = MetaValue.creator cv →
      (cv.fullName = if cv.givenname ≠ "" then
          pyStrip (cv.givenname ++ " " ++ cv.surname) else cv.surname)
      ∧ ∀ o, cv.orcid = some o → isOrcidFormat o = true)
  ∧ (∀ (row : Row) (e : Meta) (cv : CreatorValue),
      e ∈ csv_row_to_nakala_metas uris row → e.value = MetaValue.creator cv →
      (cv.fullName = if cv.givenname ≠ "" then
          pyStrip (cv.givenname ++ " " ++ cv.surname) else cv.surname)
      ∧ ∀ o, cv.orcid = some o → isOrcidFormat o = true) := by
  have hbase : ∀ (value : String) (e : Meta) (cv : CreatorValue),
      e ∈ parse_creator uris value → e.value = MetaValue.creator cv →
      (cv.fullName = if cv.givenname ≠ "" then
          pyStrip (cv.givenname ++ " " ++ cv.surname) else cv.surname)
      ∧ ∀ o, cv.orcid = some o → isOrcidFormat o = true := by
    intro value e cv he hv
    obtain ⟨name, rfl⟩ := mem_parse_creator he
    have hcv : mkCreatorValue name = cv := by
      have : MetaValue.creator (mkCreatorValue name) = MetaValue.creator cv := hv
      cases this
      rfl
    subst hcv
    exact ⟨mkCreatorValue_fullName name, mkCreatorValue_orcid_sound name⟩
  refine ⟨hbase, ?_⟩
  intro row e cv he hv
  rw [csv_row_blocks_eq] at he
  simp only [List.mem_append, or_assoc] at he
  have hstr : (e ∈ titleBlock uris row ∨ e ∈ alternativeBlock uris row ∨
      e ∈ descriptionBlock uris row ∨ e ∈ keywordsBlock uris row ∨
      e ∈ dateBlock uris row ∨ e ∈ licenseBlock uris row ∨
      e ∈ typeBlock uris row ∨ e ∈ languageBlock uris row ∨
      e ∈ temporalBlock uris row ∨ e ∈ spatialBlock uris row ∨
      e ∈ accessRightsBlock uris row ∨ e ∈ identifierBlock uris row) →
      (cv.fullName = if cv.givenname ≠ "" then
          pyStrip (cv.givenname ++ " " ++ cv.surname) else cv.surname)
      ∧ ∀ o, cv.orcid = some o → isOrcidFormat o = true := by
    intro hd
    obtain ⟨s, hs⟩ := str_block_values uris row e hd
    rw [hv] at hs
    cases hs
  rcases he with h|h|h|h|hcr|hco|h|h|h|h|h|h|h|h
  · exact hstr (Or.inl h)
  · exact hstr (Or.inr (Or.inl h))
  · exact hstr (Or.inr (Or.inr (Or.inl h)))
  · exact hstr (Or.inr (Or.inr (Or.inr (Or.inl h))))
  -- creator block
  · revert hcr
    unfold creatorBlock
    split
    · intro hcr
      exact hbase _ e cv hcr hv
    · intro hcr
      exact absurd hcr (List.not_mem_nil e)
  -- contributor block
  · revert hco
    unfold contributorBlock
    split
    · intro hco
      obtain ⟨c, hc, rfl⟩ := List.mem_map.mp hco
      exact hbase _ c cv hc hv
    · intro hco
      exact absurd hco (List.not_mem_nil e)
  · exact hstr (Or.inr (Or.inr (Or.inr (Or.inr (Or.inl h)))))
  · exact hstr (Or.inr (Or.inr (Or.inr (Or.inr (Or.inr (Or.inl h))))))
  · exact hstr (Or.inr (Or.inr (Or.inr (Or.inr (Or.inr (Or.inr (Or.inl h)))))))
  · exact hstr (Or.inr (Or.inr (Or.inr (Or.inr (Or.inr (Or.inr (Or.inr (Or.inl h))))))))
  · exact hstr (Or.inr (Or.inr (Or.inr (Or.inr (Or.inr (Or.inr (Or.inr (Or.inr (Or.inl h)))))))))
  · exact hstr (Or.inr (Or.inr (Or.inr (Or.inr (Or.inr (Or.inr (Or.inr (Or.inr (Or.inr (Or.inl h))))))))))
  · exact hstr (Or.inr (Or.inr (Or.inr (Or.inr (Or.inr (Or.inr (Or.inr (Or.inr (Or.inr (Or.inr (Or.inl h)))))))))))
  · exact hstr (Or.inr (Or.inr (Or.inr (Or.inr (Or.inr (Or.inr (Or.inr (Or.inr (Or.inr (Or.inr (Or.inr (h))))))))))))

/-- Witness for claim C8 (amended) at the specification example name. -/
theorem creator_record_invariant_w :
    wCreatorVal.fullName =
      (if wCreatorVal.givenname ≠ "" then
        pyStrip (wCreatorVal.givenname ++ " " ++ wCreatorVal.surname)
      else wCreatorVal.surname) :=
  ((creator_record_invariant init_property_uris).1
    "Dupont, John (0000-0001-2345-6789)"
    { propertyUri := "http://nakala.fr/terms#creator",
      value := MetaValue.creator wCreatorVal }
    wCreatorVal (by decide) rfl).1

/-- Claim C9: `csv_row_to_nakala_metas` is the concatenation, in the fixed order title, alternative, description, keywords/subject, creator, contributor, date/created, license, type, language, temporal, spatial, accessRights, identifier, of per-field blocks, and each block is empty when its field is absent or empty in the row. -/
theorem csv_row_field_order (uris : List (String × String)) (row : Row) :
    (csv_row_to_nakala_metas uris row =
      titleBlock uris row ++ alternativeBlock uris row ++ descriptionBlock uris row ++
      keywordsBlock uris row ++ creatorBlock uris row ++ contributorBlock uris row ++
      dateBlock uris row ++ licenseBlock uris row ++ typeBlock uris row ++
      languageBlock uris row ++ temporalBlock uris row ++ spatialBlock uris row ++
      accessRightsBlock uris row ++ identifierBlock uris row)
  ∧ (truthy row.title = false → titleBlock uris row = [])
  ∧ (truthy row.alternative = false → alternativeBlock uris row = [])
  ∧ (truthy row.description = false → descriptionBlock uris row = [])
  ∧ (truthy (pyOr row.keywords row.subject) = false → keywordsBlock uris row = [])
  ∧ (truthy row.creator = false → creatorBlock uris row = [])
  ∧ (truthy row.contributor = false → contributorBlock uris row = [])
  ∧ (truthy (pyOr row.date row.created) = false → dateBlock uris row = [])
  ∧ (truthy row.license = false → licenseBlock uris row = [])
  ∧ (truthy row.type = false → typeBlock uris row = [])
  ∧ (truthy row.language = false → languageBlock uris row = [])
  ∧ (truthy row.temporal = false → temporalBlock uris row = [])
  ∧ (truthy row.spatial = false → spatialBlock uris row = [])
  ∧ (truthy row.accessRights = false → accessRightsBlock uris row = [])
  ∧ (truthy row.identifier = false → identifierBlock uris row = []) := by
  refine ⟨csv_row_blocks_eq uris row, ?_, ?_, ?_, ?_, ?_, ?_, ?_, ?_, ?_, ?_, ?_,
    ?_, ?_, ?_⟩ <;> intro h <;>
    simp [titleBlock, alternativeBlock, descriptionBlock, keywordsBlock,
      creatorBlock, contributorBlock, dateBlock, licenseBlock, typeBlock,
      languageBlock, temporalBlock, spatialBlock, accessRightsBlock,
      identifierBlock, h]

/-- Witness for claim C9: the title block of an empty row is empty. -/
theorem csv_row_field_order_w :
    titleBlock init_property_uris { } = [] :=
  (csv_row_field_order init_property_uris { }).2.1 (by decide)

/-- Claim C10: for any dataset whose status is anything other than published (including a missing status key), `validate_dataset` performs no checks and returns True with no errors regardless of the metas. -/
theorem validate_dataset_not_published (d : Dataset)
    (h : d.status ≠ some "published") :
    validate_dataset init_property_uris d = some (true, []) := by
  unfold validate_dataset
  rw [if_neg h]

/-- Witness for claim C10: a dataset with status pending and a creator-valued type meta still validates cleanly. -/
theorem validate_dataset_not_published_w :
    validate_dataset init_property_uris
      { status := some "pending",
        metas := [{ propertyUri := "http://nakala.fr/terms#type",
                    value := MetaValue.creator
                      { givenname := "", surname := "", fullName := "",
                        orcid := none } }] } = some (true, []) :=
  validate_dataset_not_published _ (by decide)

end CsvConv
